import Mathlib

/-!
Verification of `app_tres_niveles_accion.py`, a Streamlit daily task
tracker persisting a four-column CSV (`registro_tareas.csv`).

The embedding models:
  * the in-memory pandas DataFrame as `List Row`, where every cell is an
    `Option` value (`none` models a pandas `NaN`/`None` cell).  A
    `descripcion` cell is a `CellValue` (text, number or boolean), because
    `read_csv` dtype inference loads an all-numeric or all-`True`/`False`
    description column as numbers or booleans rather than text;
  * the on-disk CSV file as `CsvFile` (header plus raw string cells);
  * `load_data` (lines 67-75) as a fallible computation: `pd.read_csv`
    raises `EmptyDataError` on a file with no columns and, via
    `parse_dates=["fecha"]`, `ValueError` when the `fecha` column is
    absent, so `loadFrame` returns `Except`.  On success `readFrame`
    performs the column-structural work (missing-column backfill with
    `None` at lines 71-73, column selection `df[COLUMNS]` at line 74) over
    untyped cells, and `loadTable` adds the cell typing of `read_csv`:
    every default NA sentinel (`""`, `"NaN"`, `"NA"`, `"null"`, ...)
    becomes `NaN` in every column, `fecha` and `nivel` parse as numbers,
    `completada` as `True`/`False`, and the `descripcion` column is typed
    column-wide (numbers if every non-NA field parses as a number, else
    booleans if every non-NA field is a boolean literal, else text).
    `fecha`, `nivel` and `completada` are typed per cell: on the columns
    the theorems quantify over (all-numeric, all-boolean-literal or
    null-backfilled columns) the per-cell parse agrees with pandas
    column-wide inference, and only `descripcion` can hold arbitrary
    text, so only it carries the column-mode logic.  In pandas the typing
    happens before the column manipulation, but the two orders agree: a
    backfilled `None` cell types to `none` either way;
  * dates as abstract day numbers (`Nat`): the ISO date rendering used by
    `to_csv` and inverted by `parse_dates` is modelled by the injective
    decimal encoding `natToStr` / `strToNat?`; likewise nonnegative
    integers, the only numbers the program writes;
  * the view/controller blocks as pure functions on `List Row`
    (`filterDate`, `viewPath`, `submitNewDay`, `toggleCompletion`,
    `historyView`).  `sort_values("fecha", ascending=False)` is modelled
    with insertion sort; the properties proved (sortedness, prefix of
    most-recent rows) do not depend on how ties are ordered.
-/

namespace TresNiveles

/-- One pandas cell value as `read_csv` can type it: text, a number or a
boolean.  Needed for `descripcion`, whose column is retyped wholesale when
every field looks numeric or boolean. -/
inductive CellValue where
  | str (s : String)
  | num (n : Nat)
  | bool (b : Bool)
deriving Repr, DecidableEq

/-- One row of the in-memory table.  Each field is optional because a
pandas cell can always hold `NaN`/`None` (e.g. after the missing-column
backfill of `load_data`). -/
structure Row where
  fecha : Option Nat
  nivel : Option Nat
  descripcion : Option CellValue
  completada : Option Bool
deriving Repr, DecidableEq

/-- `COLUMNS = ["fecha", "nivel", "descripcion", "completada"]` (line 64). -/
def COLUMNS : List String := ["fecha", "nivel", "descripcion", "completada"]

/-- `LEVEL_MAPPING` (lines 55-62), as an association list. -/
def LEVEL_MAPPING : List (String × Nat) :=
  [("Estratégica (1)", 1),
   ("Operativa (2‑a)", 2),
   ("Operativa (2‑b)", 2),
   ("Micro (3‑a)", 3),
   ("Micro (3‑b)", 3),
   ("Micro (3‑c)", 3)]

/-- Dictionary access `LEVEL_MAPPING[key]` (keys used in the source are
always present, so the default is never reached). -/
def levelOf (key : String) : Nat := (LEVEL_MAPPING.lookup key).getD 0

/-! ### Decimal serialization

`df.to_csv` renders `fecha` and `nivel` cells as decimal text and
`pd.read_csv` parses them back.  `natToStr`/`strToNat?` model that
round-tripping serialization.  Both are structurally recursive (the
encoder uses the number itself as fuel) so that concrete instances
evaluate by `decide`. -/

/-- The character of a single decimal digit. -/
def digitChar (d : Nat) : Char := Char.ofNat (48 + d)

/-- Little-endian decimal digits of `n`, with explicit fuel. -/
def natToDigitsRevAux : Nat → Nat → List Char
  | 0, _ => []
  | fuel + 1, n =>
      if n < 10 then [digitChar n]
      else digitChar (n % 10) :: natToDigitsRevAux fuel (n / 10)

/-- Decimal rendering of a natural number. -/
def natToStr (n : Nat) : String := String.mk (natToDigitsRevAux (n + 1) n).reverse

/-- Numeric value of a decimal digit character. -/
def digitVal? (c : Char) : Option Nat :=
  if 48 ≤ c.toNat ∧ c.toNat ≤ 57 then some (c.toNat - 48) else none

/-- Left-to-right accumulating decimal parse. -/
def readDigits : List Char → Nat → Option Nat
  | [], acc => some acc
  | c :: cs, acc =>
      match digitVal? c with
      | some d => readDigits cs (10 * acc + d)
      | none => none

/-- Decimal parse of a string; the empty string is not a number. -/
def strToNat? (s : String) : Option Nat :=
  if s.data.isEmpty then none else readDigits s.data 0

/-! ### The CSV file and `load_data` / `save_data` -/

/-- The persisted CSV file: a header line and raw string cells.
`save_data` (lines 78-79) writes one and `load_data` (lines 67-75) reads
one; `none` at the `loadFrame` call site models a missing file. -/
structure CsvFile where
  header : List String
  rows : List (List String)
deriving Repr, DecidableEq

/-- The default `na_values` of `pd.read_csv`: these field texts are read
back as `NaN` in every column. -/
def NA_VALUES : List String :=
  ["", "#N/A", "#N/A N/A", "#NA", "-1.#IND", "-1.#QNAN", "-NaN", "-nan",
   "1.#IND", "1.#QNAN", "<NA>", "N/A", "NA", "NULL", "NaN", "None",
   "n/a", "nan", "null"]

/-- `pd.read_csv` maps every default NA sentinel (the empty field, `NaN`,
`NA`, `null`, ...) to `NaN` and keeps any other field; `none` models the
`NaN` cell. -/
def parseCell (s : String) : Option String := if s ∈ NA_VALUES then none else some s

/-- The boolean literals the pandas parser recognises; `to_csv` itself
writes `True`/`False`. -/
def parseBool? (s : String) : Option Bool :=
  if s = "True" || s = "TRUE" then some true
  else if s = "False" || s = "FALSE" then some false
  else none

/-- The cell of a row under a column name: positional lookup of the first
column called `c` (`df[c]`). -/
def cellAt : List String → List (Option String) → String → Option String
  | [], _, _ => none
  | _, [], _ => none
  | col :: cols, v :: vs, c => if col = c then v else cellAt cols vs c

/-- An in-memory DataFrame with explicit column structure, cells untyped. -/
structure Frame where
  cols : List String
  rows : List (List (Option String))
deriving Repr, DecidableEq

/-- The message of the `pandas.errors.EmptyDataError` raised by `read_csv`
on a file with no columns. -/
def emptyDataError : String := "EmptyDataError: No columns to parse from file"

/-- The message of the `ValueError` raised by
`read_csv(parse_dates=["fecha"])` when the file has no `fecha` column. -/
def parseDatesError : String := "ValueError: Missing column provided to parse_dates: fecha"

/-- The successful part of `load_data` on an existing, parseable file:
read the cells (NA sentinels to `NaN`), append each required column that
is absent filled with `None` (lines 71-73), and select `df[COLUMNS]`
(line 74). -/
def readFrame (f : CsvFile) : Frame :=
  let cells := f.rows.map (List.map parseCell)
  let missing := COLUMNS.filter (fun c => !(f.header.contains c))
  let allCols := f.header ++ missing
  let filled := cells.map (fun r => r ++ missing.map (fun _ => none))
  { cols := COLUMNS,
    rows := filled.map (fun r => COLUMNS.map (fun c => cellAt allCols r c)) }

/-- Column-structural model of `load_data` (lines 67-75): a missing file
yields the empty four-column DataFrame without touching `read_csv`; a
present file raises `EmptyDataError` if it has no columns and
`ValueError` if the `fecha` column named in `parse_dates` is absent —
only otherwise is a DataFrame returned, so the missing-column backfill of
lines 71-73 is never reached for a missing `fecha`. -/
def loadFrame : Option CsvFile → Except String Frame
  | none => Except.ok { cols := COLUMNS, rows := [] }
  | some f =>
      if f.header = [] then Except.error emptyDataError
      else if "fecha" ∈ f.header then Except.ok (readFrame f)
      else Except.error parseDatesError

/-- Whether every non-NA field of a column parses as a number. -/
def colAllNat (col : List (Option String)) : Bool :=
  col.all (fun c => c.all (fun s => (strToNat? s).isSome))

/-- Whether every non-NA field of a column is a boolean literal. -/
def colAllBool (col : List (Option String)) : Bool :=
  col.all (fun c => c.all (fun s => (parseBool? s).isSome))

/-- The dtype `read_csv` infers for a free-text column. -/
inductive DescMode where
  | num
  | bool
  | str
deriving Repr, DecidableEq

/-- Column-wide dtype inference: numbers take precedence, then booleans,
else the column stays text. -/
def descMode (col : List (Option String)) : DescMode :=
  if colAllNat col then DescMode.num
  else if colAllBool col then DescMode.bool
  else DescMode.str

/-- One `descripcion` cell typed under the column's inferred dtype. -/
def typeDescCell : DescMode → Option String → Option CellValue
  | DescMode.num, c => c.bind (fun s => (strToNat? s).map CellValue.num)
  | DescMode.bool, c => c.bind (fun s => (parseBool? s).map CellValue.bool)
  | DescMode.str, c => c.map CellValue.str

/-- Typing of one selected 4-cell row: `fecha` and `nivel` parse as
numbers (`parse_dates` converts `fecha` per cell; an all-numeric `nivel`
column is numeric), `completada` as boolean literals, and the
`descripcion` value is supplied already typed under its column mode.
`readFrame` only produces rows of length 4, so the catch-all arm is
unreachable. -/
def rowOfCells : List (Option String) → Option CellValue → Row
  | [f, n, _, c], d =>
      { fecha := f.bind strToNat?,
        nivel := n.bind strToNat?,
        descripcion := d,
        completada := c.bind parseBool? }
  | _, _ => { fecha := none, nivel := none, descripcion := none, completada := none }

/-- `load_data` down to typed rows: on success, infer the `descripcion`
column dtype (position 2 of the selected columns) and type each row. -/
def loadTable (file : Option CsvFile) : Except String (List Row) :=
  (loadFrame file).map (fun fr =>
    let mode := descMode (fr.rows.map (fun r => r.getD 2 none))
    fr.rows.map (fun r => rowOfCells r (typeDescCell mode (r.getD 2 none))))

/-- Rendering of a `fecha`/`nivel` cell by `to_csv`: `NaN` becomes the
empty field, a number its decimal text. -/
def encodeCellNat : Option Nat → String
  | none => ""
  | some n => natToStr n

/-- Rendering of a `descripcion` cell by `to_csv`: `NaN` becomes the
empty field, and a value is written as Python would print it. -/
def encodeCellDesc : Option CellValue → String
  | none => ""
  | some (CellValue.str s) => s
  | some (CellValue.num n) => natToStr n
  | some (CellValue.bool b) => if b then "True" else "False"

/-- Rendering of a `completada` cell by `to_csv`. -/
def encodeCellBool : Option Bool → String
  | none => ""
  | some b => if b then "True" else "False"

/-- One CSV line written by `to_csv`, in `COLUMNS` order. -/
def encodeRow (r : Row) : List String :=
  [encodeCellNat r.fecha, encodeCellNat r.nivel,
   encodeCellDesc r.descripcion, encodeCellBool r.completada]

/-- `save_data` (lines 78-79): full overwrite of the store with the
current table, header `COLUMNS`, no index column. -/
def saveData (df : List Row) : CsvFile := { header := COLUMNS, rows := df.map encodeRow }

/-- The raw `descripcion` column of the file `save_data` writes for `df`,
as `read_csv` sees it after NA substitution. -/
def descRawColumn (df : List Row) : List (Option String) :=
  df.map (fun r => parseCell (encodeCellDesc r.descripcion))

/-- A well-typed row per the external-interface contract: a date, an
integer level, a description value and a boolean flag. -/
def ValidRow (r : Row) : Prop :=
  r.fecha.isSome ∧ r.nivel.isSome ∧ r.descripcion.isSome ∧ r.completada.isSome

instance (r : Row) : Decidable (ValidRow r) := by unfold ValidRow; infer_instance

/-- A valid table: every row well-typed. -/
def ValidTable (df : List Row) : Prop := ∀ r ∈ df, ValidRow r

instance (df : List Row) : Decidable (ValidTable df) := by
  unfold ValidTable; infer_instance

/-- Decidable equality of `Except` results, so that concrete load
outcomes evaluate by `decide`. -/
def exceptDecEq {e a : Type} [DecidableEq e] [DecidableEq a] : DecidableEq (Except e a)
  | Except.error x, Except.error y =>
      if h : x = y then Decidable.isTrue (congrArg Except.error h)
      else Decidable.isFalse (fun hh => h (Except.error.inj hh))
  | Except.error _, Except.ok _ => Decidable.isFalse (fun hh => Except.noConfusion hh)
  | Except.ok _, Except.error _ => Decidable.isFalse (fun hh => Except.noConfusion hh)
  | Except.ok x, Except.ok y =>
      if h : x = y then Decidable.isTrue (congrArg Except.ok h)
      else Decidable.isFalse (fun hh => h (Except.ok.inj hh))

instance {e a : Type} [DecidableEq e] [DecidableEq a] : DecidableEq (Except e a) :=
  exceptDecEq

/-! ### View/controller operations -/

/-- Lines 89-91: `mask_today = df_tasks["fecha"] == pd.to_datetime(selected_date)`
and `df_today = df_tasks[mask_today]`.  A `NaN` date compares unequal to
every selected date, as in pandas. -/
def filterDate (df : List Row) (d : Nat) : List Row :=
  df.filter (fun r => r.fecha == some d)

/-- The two render paths of the page body (line 96). -/
inductive ViewPath where
  | creationForm
  | checklist
deriving Repr, DecidableEq

/-- Line 96: `if df_today.empty:` show the creation form, `else` the
completion checklist. -/
def viewPath (df : List Row) (d : Nat) : ViewPath :=
  if (filterDate df d).isEmpty then ViewPath.creationForm else ViewPath.checklist

/-- The six `new_rows` dicts built on submit (lines 108-115): all tagged
with the selected date, levels taken from `LEVEL_MAPPING`, descriptions
from the six text inputs, `completada` fixed to `False`. -/
def newRows (d : Nat) (t1 t2 t3 t4 t5 t6 : String) : List Row :=
  [{ fecha := some d, nivel := some (levelOf "Estratégica (1)"),
     descripcion := some (CellValue.str t1), completada := some false },
   { fecha := some d, nivel := some (levelOf "Operativa (2‑a)"),
     descripcion := some (CellValue.str t2), completada := some false },
   { fecha := some d, nivel := some (levelOf "Operativa (2‑b)"),
     descripcion := some (CellValue.str t3), completada := some false },
   { fecha := some d, nivel := some (levelOf "Micro (3‑a)"),
     descripcion := some (CellValue.str t4), completada := some false },
   { fecha := some d, nivel := some (levelOf "Micro (3‑b)"),
     descripcion := some (CellValue.str t5), completada := some false },
   { fecha := some d, nivel := some (levelOf "Micro (3‑c)"),
     descripcion := some (CellValue.str t6), completada := some false }]

/-- Line 116: `pd.concat([df_tasks, pd.DataFrame(new_rows)], ignore_index=True)`. -/
def submitNewDay (df : List Row) (d : Nat) (t1 t2 t3 t4 t5 t6 : String) : List Row :=
  df ++ newRows d t1 t2 t3 t4 t5 t6

/-- The whole submit handler (lines 107-117): build the new table and call
`save_data` on it.  Returns the new table and the file written. -/
def submitHandler (df : List Row) (d : Nat) (t1 t2 t3 t4 t5 t6 : String) :
    List Row × CsvFile :=
  let df2 := submitNewDay df d t1 t2 t3 t4 t5 t6
  (df2, saveData df2)

/-- Lines 131-132: `df_tasks.at[idx, "completada"] = done`.  After
`load_data`/`ignore_index` concatenation the DataFrame index is the range
index 0..n-1, so the label `idx` addresses the row at that position. -/
def toggleCompletion : List Row → Nat → Bool → List Row
  | [], _, _ => []
  | r :: rs, 0, b => { r with completada := some b } :: rs
  | r :: rs, idx + 1, b => r :: toggleCompletion rs idx b

/-- Sort key for the history sidebar: the `fecha` cell, with `NaN` (`⊥`)
placed last by the descending sort, as pandas does. -/
def histKey (r : Row) : WithBot Nat := r.fecha

/-- Row order of `sort_values("fecha", ascending=False)`: later dates
first, `NaN` dates last. -/
def histBefore (x y : Row) : Prop := histKey y ≤ histKey x

instance : DecidableRel histBefore := fun x y =>
  inferInstanceAs (Decidable (histKey y ≤ histKey x))

instance : IsTotal Row histBefore :=
  ⟨fun x y => (le_total (histKey y) (histKey x)).imp id id⟩

instance : IsTrans Row histBefore :=
  ⟨fun _ _ _ h1 h2 => le_trans h2 h1⟩

/-- Line 144: `df_tasks.sort_values("fecha", ascending=False)`, modelled
with insertion sort (the properties proved of the history view hold for
any correct sort regardless of tie order). -/
def sortHistory (df : List Row) : List Row := df.insertionSort histBefore

/-- Lines 144-146: the history sidebar shows `head(14)` of the table
sorted by descending date. -/
def historyView (df : List Row) : List Row := (sortHistory df).take 14

/-- The identifying fields of a row, the completion flag excluded. -/
def rowKey (r : Row) : Option Nat × Option Nat × Option CellValue :=
  (r.fecha, r.nivel, r.descripcion)

/-- The reachable state transitions of the app: a creation-form submit
(only offered when the selected date has no rows, line 96) or a checkbox
toggle on an existing row (lines 123-133). -/
inductive Step : List Row → List Row → Prop
  | submit (df : List Row) (d : Nat) (t1 t2 t3 t4 t5 t6 : String)
      (hEmpty : filterDate df d = []) :
      Step df (submitNewDay df d t1 t2 t3 t4 t5 t6)
  | toggle (df : List Row) (idx : Nat) (b : Bool) (hIdx : idx < df.length) :
      Step df (toggleCompletion df idx b)

/-! ### Round-trip facts about the decimal serialization -/

theorem digitVal?_digitChar (d : Nat) (hd : d < 10) : digitVal? (digitChar d) = some d := by
  interval_cases d <;> decide

theorem readDigits_append (xs ys : List Char) (acc : Nat) :
    readDigits (xs ++ ys) acc =
      (readDigits xs acc).bind (fun a => readDigits ys a) := by
  induction xs generalizing acc with
  | nil => simp [readDigits]
  | cons c cs ih =>
      simp only [List.cons_append, readDigits]
      cases digitVal? c with
      | none => simp
      | some d => simp [ih]

theorem readDigits_natToDigitsRevAux (fuel : Nat) :
    ∀ n acc, n < fuel →
      readDigits (natToDigitsRevAux fuel n).reverse acc =
        some (acc * 10 ^ (natToDigitsRevAux fuel n).length + n) := by
  induction fuel with
  | zero => intro n acc h; omega
  | succ fuel ih =>
      intro n acc h
      by_cases h10 : n < 10
      · simp only [natToDigitsRevAux, if_pos h10, List.reverse_singleton,
          readDigits, digitVal?_digitChar n h10, List.length_singleton]
        simp [pow_one, Nat.mul_comm]
      · have hpos : 0 < n := by omega
        have hlt : n / 10 < fuel :=
          lt_of_lt_of_le (Nat.div_lt_self hpos (by omega)) (by omega)
        simp only [natToDigitsRevAux, if_neg h10, List.reverse_cons,
          readDigits_append, ih (n / 10) acc hlt, Option.bind_some,
          readDigits, digitVal?_digitChar (n % 10) (Nat.mod_lt n (by omega)),
          List.length_cons]
        have hdm : 10 * (n / 10) + n % 10 = n := Nat.div_add_mod n 10
        have : 10 * (acc * 10 ^ (natToDigitsRevAux fuel (n / 10)).length + n / 10)
            + n % 10
            = acc * 10 ^ ((natToDigitsRevAux fuel (n / 10)).length + 1) + n := by
          rw [pow_succ]
          calc 10 * (acc * 10 ^ (natToDigitsRevAux fuel (n / 10)).length + n / 10)
              + n % 10
              = acc * (10 ^ (natToDigitsRevAux fuel (n / 10)).length * 10)
                + (10 * (n / 10) + n % 10) := by ring
            _ = acc * (10 ^ (natToDigitsRevAux fuel (n / 10)).length * 10) + n := by
                rw [hdm]
        simp only [Option.some_bind]
        exact congrArg some this

theorem natToDigitsRevAux_ne_nil (fuel n : Nat) :
    natToDigitsRevAux (fuel + 1) n ≠ [] := by
  unfold natToDigitsRevAux
  split <;> simp

theorem strToNat?_natToStr (n : Nat) : strToNat? (natToStr n) = some n := by
  have hne : (natToDigitsRevAux (n + 1) n).reverse ≠ [] := by
    simp [natToDigitsRevAux_ne_nil n n]
  simp only [strToNat?, natToStr, List.isEmpty_iff, if_neg hne]
  have := readDigits_natToDigitsRevAux (n + 1) n 0 (Nat.lt_succ_self n)
  simpa using this

theorem natToStr_notin_NA (n : Nat) : natToStr n ∉ NA_VALUES := by
  intro h
  have hNA : ∀ s ∈ NA_VALUES, strToNat? s = none := by decide
  have hx := hNA _ h
  rw [strToNat?_natToStr] at hx
  exact Option.noConfusion hx

/-! ### Facts about column selection -/

theorem cellAt_map_self (cols : List String) (g : String → Option String)
    (c : String) (hc : c ∈ cols) : cellAt cols (cols.map g) c = g c := by
  induction cols with
  | nil => cases hc
  | cons x xs ih =>
      simp only [List.map_cons, cellAt]
      by_cases hx : x = c
      · subst hx; simp
      · rw [if_neg hx]
        exact ih ((List.mem_cons.mp hc).resolve_left (fun h => hx h.symm))

theorem cellAt_append_right (cols1 cols2 : List String)
    (vs1 vs2 : List (Option String)) (c : String)
    (hlen : vs1.length = cols1.length) (hc : c ∉ cols1) :
    cellAt (cols1 ++ cols2) (vs1 ++ vs2) c = cellAt cols2 vs2 c := by
  induction cols1 generalizing vs1 with
  | nil =>
      have : vs1 = [] := List.eq_nil_of_length_eq_zero hlen
      simp [this]
  | cons x xs ih =>
      cases vs1 with
      | nil => simp at hlen
      | cons v vs =>
          simp only [List.cons_append, cellAt]
          rw [if_neg (fun h : x = c => hc (List.mem_cons.mpr (Or.inl h.symm)))]
          exact ih vs (by simpa using hlen) (fun h => hc (List.mem_cons_of_mem x h))

theorem cellAt_columns (a b c d : Option String) :
    COLUMNS.map (fun col => cellAt COLUMNS [a, b, c, d] col) = [a, b, c, d] := rfl

/-! ### Facts about the toggle operation -/

theorem toggle_length (df : List Row) (idx : Nat) (b : Bool) :
    (toggleCompletion df idx b).length = df.length := by
  induction df generalizing idx with
  | nil => rfl
  | cons r rs ih =>
      cases idx with
      | zero => rfl
      | succ idx => simp [toggleCompletion, ih]

theorem toggle_getElem (df : List Row) (idx : Nat) (b : Bool) (j : Nat) :
    (toggleCompletion df idx b).get? j =
      if j = idx then (df.get? j).map (fun r => { r with completada := some b })
      else df.get? j := by
  induction df generalizing idx j with
  | nil => simp [toggleCompletion]
  | cons r rs ih =>
      cases idx with
      | zero =>
          cases j with
          | zero => simp [toggleCompletion]
          | succ j => simp [toggleCompletion]
      | succ idx =>
          cases j with
          | zero => simp [toggleCompletion]
          | succ j => simpa [toggleCompletion] using ih idx j

theorem toggle_map_rowKey (df : List Row) (idx : Nat) (b : Bool) :
    (toggleCompletion df idx b).map rowKey = df.map rowKey := by
  induction df generalizing idx with
  | nil => rfl
  | cons r rs ih =>
      cases idx with
      | zero => simp [toggleCompletion, rowKey]
      | succ idx => simp [toggleCompletion, ih]

/-! ### The save/load round trip -/

theorem readFrame_saveData (T : List Row) :
    readFrame (saveData T) =
      { cols := COLUMNS, rows := T.map (fun r => (encodeRow r).map parseCell) } := by
  have hmiss : COLUMNS.filter (fun c => !(COLUMNS.contains c)) = [] := by decide
  simp only [readFrame, saveData, hmiss, List.map_map, List.map_nil,
    List.append_nil]
  rfl

theorem roundtrip_row (r : Row) (hv : ValidRow r)
    (hdesc : ∃ s, r.descripcion = some (CellValue.str s) ∧ s ∉ NA_VALUES) :
    rowOfCells ((encodeRow r).map parseCell)
      (typeDescCell DescMode.str (((encodeRow r).map parseCell).getD 2 none)) = r := by
  obtain ⟨rf, rn, rd, rc⟩ := r
  obtain ⟨hf, hn, _, hc⟩ := hv
  obtain ⟨s, hs, hsNA⟩ := hdesc
  rcases rf with _ | f
  · simp at hf
  rcases rn with _ | n
  · simp at hn
  rcases rc with _ | b
  · simp at hc
  obtain rfl : rd = some (CellValue.str s) := hs
  have hpf : parseCell (natToStr f) = some (natToStr f) := by
    simp [parseCell, natToStr_notin_NA f]
  have hpn : parseCell (natToStr n) = some (natToStr n) := by
    simp [parseCell, natToStr_notin_NA n]
  have hps : parseCell s = some s := by simp [parseCell, hsNA]
  have hpT : parseCell "True" = some "True" := by decide
  have hpF : parseCell "False" = some "False" := by decide
  have hbT : parseBool? "True" = some true := by decide
  have hbF : parseBool? "False" = some false := by decide
  cases b <;>
    simp [encodeRow, encodeCellNat, encodeCellDesc, encodeCellBool, rowOfCells,
      typeDescCell, hpf, hpn, hps, hpT, hpF, hbT, hbF, strToNat?_natToStr]

/-! ### Concrete sample data used by the witnesses and counterexamples -/

/-- A well-typed sample row. -/
def sampleRow : Row :=
  { fecha := some 3, nivel := some 1,
    descripcion := some (CellValue.str "Planificar la semana"), completada := some false }

/-- A second well-typed sample row with a later date. -/
def sampleRow2 : Row :=
  { fecha := some 5, nivel := some 2,
    descripcion := some (CellValue.str "Redactar informe"), completada := some true }

/-- A valid table with an empty description. -/
def c1EmptyDescTable : List Row :=
  [{ fecha := some 3, nivel := some 1,
     descripcion := some (CellValue.str ""), completada := some false }]

/-- A valid table whose description is the NA sentinel text `NaN`. -/
def c1SentinelDescTable : List Row :=
  [{ fecha := some 3, nivel := some 1,
     descripcion := some (CellValue.str "NaN"), completada := some false }]

/-- A valid table whose description column is all numeric text. -/
def c1NumericDescTable : List Row :=
  [{ fecha := some 3, nivel := some 1,
     descripcion := some (CellValue.str "7"), completada := some false }]

/-- A valid table whose description column is all boolean literals. -/
def c1BoolDescTable : List Row :=
  [{ fecha := some 3, nivel := some 1,
     descripcion := some (CellValue.str "True"), completada := some false }]

/-- A valid table whose descriptions are genuinely textual. -/
def c1GoodTable : List Row := [sampleRow, sampleRow2]

/-- A stored file with a `fecha` column but missing `descripcion` and
`completada`. -/
def c4File : CsvFile := { header := ["fecha", "nivel"], rows := [["1", "2"]] }

/-- A stored file missing the `fecha` column. -/
def c4NoFechaFile : CsvFile :=
  { header := ["nivel", "descripcion", "completada"], rows := [["1", "x", "True"]] }

/-- A stored file with an extra fifth column. -/
def c9File : CsvFile :=
  { header := ["fecha", "nivel", "descripcion", "completada", "extra"],
    rows := [["1", "2", "x", "True", "junk"]] }

/-- A stored file whose only column is `descripcion`. -/
def c9NoFechaFile : CsvFile := { header := ["descripcion"], rows := [["hola"]] }

/-- A two-row sample table. -/
def c6Df : List Row := [sampleRow, sampleRow2]

/-- A two-row sample table for the toggle witness. -/
def c3Df : List Row := [sampleRow, sampleRow2]

/-! ### The claims -/

/-- C2: submitting the creation form for a date with no existing rows
appends exactly the 6 new rows to the table, tagged with that date and
with levels [1, 2, 2, 3, 3, 3] in that order, and the result is the table
passed to `save_data`. -/
theorem c2_submit_appends_six (df : List Row) (d : Nat) (t1 t2 t3 t4 t5 t6 : String)
    (hEmpty : filterDate df d = []) :
    (submitHandler df d t1 t2 t3 t4 t5 t6).1 = df ++ newRows d t1 t2 t3 t4 t5 t6 ∧
    (newRows d t1 t2 t3 t4 t5 t6).length = 6 ∧
    (newRows d t1 t2 t3 t4 t5 t6).map Row.nivel =
      [some 1, some 2, some 2, some 3, some 3, some 3] ∧
    (∀ r ∈ newRows d t1 t2 t3 t4 t5 t6, r.fecha = some d) ∧
    (submitHandler df d t1 t2 t3 t4 t5 t6).2 =
      saveData (submitHandler df d t1 t2 t3 t4 t5 t6).1 := by
  refine ⟨rfl, rfl, rfl, ?_, rfl⟩
  intro r hr
  simp only [newRows, List.mem_cons, List.not_mem_nil, or_false] at hr
  rcases hr with h | h | h | h | h | h <;> simp [h]

/-- C2 witness: the submit handler at concrete inputs. -/
theorem c2_submit_appends_six_witness :
    (submitHandler [] 4 "a" "b" "c" "d" "e" "f").1 =
      [] ++ newRows 4 "a" "b" "c" "d" "e" "f" ∧
    (newRows 4 "a" "b" "c" "d" "e" "f").map Row.nivel =
      [some 1, some 2, some 2, some 3, some 3, some 3] ∧
    (submitHandler [] 4 "a" "b" "c" "d" "e" "f").2 =
      saveData (submitHandler [] 4 "a" "b" "c" "d" "e" "f").1 :=
  ⟨(c2_submit_appends_six [] 4 "a" "b" "c" "d" "e" "f" (by decide)).1,
   (c2_submit_appends_six [] 4 "a" "b" "c" "d" "e" "f" (by decide)).2.2.1,
   (c2_submit_appends_six [] 4 "a" "b" "c" "d" "e" "f" (by decide)).2.2.2.2⟩

/-- C3: toggling the checkbox of row `idx` preserves the length of the
table, leaves every other position untouched, and at position `idx` only
replaces the `completada` flag (so `fecha`, `nivel` and `descripcion` of
that row are kept). -/
theorem c3_toggle_frame (df : List Row) (idx : Nat) (b : Bool) (hIdx : idx < df.length) :
    (toggleCompletion df idx b).length = df.length ∧
    (∀ j, j ≠ idx → (toggleCompletion df idx b).get? j = df.get? j) ∧
    (toggleCompletion df idx b).get? idx =
      (df.get? idx).map (fun r => { r with completada := some b }) := by
  refine ⟨toggle_length df idx b, ?_, ?_⟩
  · intro j hj
    rw [toggle_getElem, if_neg hj]
  · rw [toggle_getElem, if_pos rfl]

/-- C3 witness: a concrete toggle. -/
theorem c3_toggle_frame_witness :
    (toggleCompletion c3Df 0 true).length = c3Df.length ∧
    (toggleCompletion c3Df 0 true).get? 1 = c3Df.get? 1 ∧
    (toggleCompletion c3Df 0 true).get? 0 =
      (c3Df.get? 0).map (fun r => { r with completada := some true }) :=
  ⟨(c3_toggle_frame c3Df 0 true (by decide)).1,
   (c3_toggle_frame c3Df 0 true (by decide)).2.1 1 (by decide),
   (c3_toggle_frame c3Df 0 true (by decide)).2.2⟩

/-- C4, corrected: for a stored file that does contain the `fecha` column,
each missing required column loads as present and `null`-filled for every
row, without raising.  As stated the claim fails when `fecha` itself is
among the missing columns: `read_csv(parse_dates=["fecha"])` then raises
`ValueError` instead of backfilling; see the counterexample. -/
theorem c4_missing_column_null (f : CsvFile) (hFecha : "fecha" ∈ f.header)
    (hlen : ∀ r ∈ f.rows, r.length = f.header.length)
    (c : String) (hcCol : c ∈ COLUMNS) (hcMiss : c ∉ f.header) :
    loadFrame (some f) = Except.ok (readFrame f) ∧
    c ∈ (readFrame f).cols ∧
    ∀ row ∈ (readFrame f).rows, cellAt (readFrame f).cols row c = none := by
  have hne : f.header ≠ [] := fun h => by simp [h] at hFecha
  refine ⟨by simp [loadFrame, hne, hFecha], hcCol, ?_⟩
  intro row hrow
  simp only [readFrame, List.map_map] at hrow
  obtain ⟨raw, hraw, rfl⟩ := List.mem_map.mp hrow
  have hmem : c ∈ COLUMNS.filter (fun c => !(f.header.contains c)) :=
    List.mem_filter.mpr ⟨hcCol, by simpa using hcMiss⟩
  show cellAt COLUMNS (COLUMNS.map _) c = none
  rw [cellAt_map_self _ _ _ hcCol]
  simp only [Function.comp_apply]
  rw [cellAt_append_right _ _ _ _ _ (by simpa using hlen raw hraw) hcMiss]
  exact cellAt_map_self _ (fun _ => none) c hmem

/-- C4 witness: a file with `fecha` present but `descripcion` and
`completada` missing loads with those cells `null`. -/
theorem c4_missing_column_null_witness :
    loadFrame (some c4File) = Except.ok (readFrame c4File) ∧
    "descripcion" ∈ (readFrame c4File).cols ∧
    cellAt (readFrame c4File).cols [some "1", some "2", none, none] "descripcion" = none :=
  ⟨(c4_missing_column_null c4File (by decide) (by decide) "descripcion"
      (by decide) (by decide)).1,
   (c4_missing_column_null c4File (by decide) (by decide) "descripcion"
      (by decide) (by decide)).2.1,
   (c4_missing_column_null c4File (by decide) (by decide) "descripcion"
      (by decide) (by decide)).2.2 [some "1", some "2", none, none] (by decide)⟩

/-- C4 counterexample: a stored file missing `fecha` satisfies the
claim's premise, yet `load_data` raises the `parse_dates` `ValueError`
instead of returning a backfilled table. -/
theorem c4_missing_fecha_cex :
    "fecha" ∈ COLUMNS ∧ "fecha" ∉ c4NoFechaFile.header ∧
    loadFrame (some c4NoFechaFile) = Except.error parseDatesError := by
  decide

/-- C5: the page body renders the creation form exactly when filtering the
table by the selected date yields no rows, and the checklist otherwise. -/
theorem c5_view_branch (df : List Row) (d : Nat) :
    (filterDate df d = [] → viewPath df d = ViewPath.creationForm) ∧
    (filterDate df d ≠ [] → viewPath df d = ViewPath.checklist) := by
  constructor <;> intro h <;> simp [viewPath, List.isEmpty_iff, h]

/-- C5 witness: both branches at concrete inputs. -/
theorem c5_view_branch_witness :
    viewPath [] 3 = ViewPath.creationForm ∧
    viewPath [sampleRow] 3 = ViewPath.checklist :=
  ⟨(c5_view_branch [] 3).1 (by decide),
   (c5_view_branch [sampleRow] 3).2 (by decide)⟩

/-- C6: for a non-empty table the history sidebar shows at most 14 rows,
sorted by descending date; its rows come from the table, and each of them
is at least as recent as every row it leaves out. -/
theorem c6_history (df : List Row) (hne : df ≠ []) :
    (historyView df).length ≤ 14 ∧
    List.Sorted histBefore (historyView df) ∧
    (∀ r ∈ historyView df, r ∈ df) ∧
    (∀ r ∈ historyView df, ∀ s ∈ (sortHistory df).drop 14, histBefore r s) := by
  have hsorted : List.Sorted histBefore (sortHistory df) :=
    List.sorted_insertionSort histBefore df
  refine ⟨List.length_take_le 14 _, ?_, ?_, ?_⟩
  · exact List.Pairwise.sublist (List.take_sublist 14 _) hsorted
  · intro r hr
    exact (List.perm_insertionSort histBefore df).subset
      (List.take_subset 14 _ hr)
  · intro r hr s hs
    have hsplit := hsorted
    rw [← List.take_append_drop 14 (sortHistory df)] at hsplit
    exact (List.pairwise_append.mp hsplit).2.2 r hr s hs

/-- C6 witness: the history view at a concrete two-row table. -/
theorem c6_history_witness :
    (historyView c6Df).length ≤ 14 ∧
    List.Sorted histBefore (historyView c6Df) ∧
    sampleRow ∈ c6Df :=
  ⟨(c6_history c6Df (by decide)).1,
   (c6_history c6Df (by decide)).2.1,
   (c6_history c6Df (by decide)).2.2.1 sampleRow (by decide)⟩

/-- C7: when the persisted CSV file does not exist, `load_data` returns
the empty table with the four columns, and no rows at either layer;
`read_csv` (and its raise paths) is not reached. -/
theorem c7_missing_file_empty :
    loadFrame none = Except.ok { cols := COLUMNS, rows := [] } ∧
    loadTable none = Except.ok [] :=
  ⟨rfl, rfl⟩

/-- C8: no reachable transition deletes a row: after a creation-form
submit or a checkbox toggle, every (fecha, nivel, descripcion) key present
before is still present. -/
theorem c8_no_deletion (df df2 : List Row) (h : Step df df2) :
    ∀ k ∈ df.map rowKey, k ∈ df2.map rowKey := by
  cases h with
  | submit d t1 t2 t3 t4 t5 t6 hEmpty =>
      intro k hk
      simp only [submitNewDay, List.map_append, List.mem_append]
      exact Or.inl hk
  | toggle idx b hIdx =>
      intro k hk
      rw [toggle_map_rowKey]
      exact hk

/-- C8 witness: a concrete submit transition keeps the existing row key. -/
theorem c8_no_deletion_witness :
    rowKey sampleRow ∈ (submitNewDay [sampleRow] 4 "a" "b" "c" "d" "e" "f").map rowKey :=
  c8_no_deletion [sampleRow] _
    (Step.submit [sampleRow] 4 "a" "b" "c" "d" "e" "f" (by decide))
    (rowKey sampleRow) (by decide)

/-- C9, corrected: whenever `load_data` returns a table (the file is
absent, or present with a `fecha` column), that table has exactly the
four required columns in order and every row has exactly those four
cells, so extra stored columns are dropped.  As stated ("always
returns") the claim fails: for a present file missing `fecha`,
`read_csv(parse_dates=["fecha"])` raises instead of returning; see the
counterexample. -/
theorem c9_exact_columns (file : Option CsvFile) (fr : Frame)
    (h : loadFrame file = Except.ok fr) :
    fr.cols = COLUMNS ∧ ∀ row ∈ fr.rows, row.length = COLUMNS.length := by
  cases file with
  | none =>
      obtain rfl : ({ cols := COLUMNS, rows := [] } : Frame) = fr := Except.ok.inj h
      refine ⟨rfl, ?_⟩
      intro row hrow
      simp at hrow
  | some f =>
      simp only [loadFrame] at h
      by_cases h0 : f.header = []
      · rw [if_pos h0] at h
        exact absurd h (by simp)
      · rw [if_neg h0] at h
        by_cases h1 : "fecha" ∈ f.header
        · rw [if_pos h1] at h
          obtain rfl : readFrame f = fr := Except.ok.inj h
          refine ⟨rfl, ?_⟩
          intro row hrow
          simp only [readFrame, List.map_map] at hrow
          obtain ⟨raw, _, rfl⟩ := List.mem_map.mp hrow
          simp
        · rw [if_neg h1] at h
          exact absurd h (by simp)

/-- C9 witness: a file with a fifth column loads with exactly the four
required columns. -/
theorem c9_exact_columns_witness :
    (readFrame c9File).cols = COLUMNS ∧
    ([some "1", some "2", some "x", some "True"] : List (Option String)).length =
      COLUMNS.length :=
  ⟨(c9_exact_columns (some c9File) (readFrame c9File) (by decide)).1,
   (c9_exact_columns (some c9File) (readFrame c9File) (by decide)).2
     [some "1", some "2", some "x", some "True"] (by decide)⟩

/-- C9 counterexample: for a file whose only column is `descripcion`,
`load_data` raises the `parse_dates` `ValueError` rather than returning
a four-column table. -/
theorem c9_missing_fecha_cex :
    loadFrame (some c9NoFechaFile) = Except.error parseDatesError := by
  decide

/-- C10: every row built by the creation-form submit has `completada`
set to `False`, whatever the descriptions are. -/
theorem c10_new_rows_uncompleted (d : Nat) (t1 t2 t3 t4 t5 t6 : String) :
    ∀ r ∈ newRows d t1 t2 t3 t4 t5 t6, r.completada = some false := by
  intro r hr
  simp only [newRows, List.mem_cons, List.not_mem_nil, or_false] at hr
  rcases hr with h | h | h | h | h | h <;> simp [h]

/-- C10 witness: the strategic row of a concrete submit. -/
theorem c10_new_rows_uncompleted_witness :
    (Row.mk (some 4) (some 1) (some (CellValue.str "a")) (some false)).completada =
      some false :=
  c10_new_rows_uncompleted 4 "a" "b" "c" "d" "e" "f" _ (by decide)

end TresNiveles
